import Mathlib

/-!
Shallow embedding of src/register_preprocessor_app.py (Register Pre-Processor).

The Python file is a script executed top to bottom: input branches (lines
34-131), the helper function translate_marker (lines 136-150), and a final
process-and-export block (lines 155-171).  The parts with decision logic are
embedded below as executable Lean functions:

- translate_marker (source lines 136-150);
- the module-level PDF line-extraction loop (source lines 59-92), embedded as
  pyParts / classifyParts / parseLine / extractLines / pdfOutcome;
- the process-and-export block (source lines 155-171), embedded as
  pollingCell / addPollingDistrict / processExport over a string-valued table.

Character classes (regex \s, \d, \w, A-Z) are modelled at their ASCII meaning;
all concrete inputs considered are ASCII apart from the en-dash appearing
inside the fixed marker-description strings.
-/

/-- ASCII whitespace as recognised by Python str.strip and the regex class \s:
space, tab, newline, carriage return, vertical tab, form feed. -/
def isPySpace (c : Char) : Bool :=
  c = ' ' || c = '\t' || c = '\n' || c = '\r' || c = '\x0b' || c = '\x0c'

/-- Python str.strip: drop leading and trailing whitespace. -/
def pyStrip (s : String) : String :=
  String.mk (((s.toList.dropWhile isPySpace).reverse.dropWhile isPySpace).reverse)

/-- Python str.upper restricted to ASCII letters. -/
def pyUpper (s : String) : String :=
  String.mk (s.toList.map Char.toUpper)

/-- Scanner state for splitting at whitespace runs of length at least 2:
building a field (characters held reversed), having just seen one whitespace
character w after a field (one whitespace alone stays inside the field), or
inside a separator run whose first two whitespace characters are consumed. -/
inductive SplitState where
  | field : List Char → SplitState
  | pending : Char → List Char → SplitState
  | sep : SplitState

/-- Python re.split of a character list at maximal whitespace runs of length
at least 2 (the separator regex of source line 61), as a one-character-per-step
scanner.  A run of a single whitespace character stays inside the current
field; a run of two or more ends the field, and a leading or trailing
separator run contributes an empty field, exactly as re.split does. -/
def splitRuns2 : List Char → SplitState → List (List Char)
  | [], .field cur => [cur.reverse]
  | [], .pending w cur => [(w :: cur).reverse]
  | [], .sep => [[]]
  | c :: rest, .field cur =>
    if isPySpace c then splitRuns2 rest (.pending c cur)
    else splitRuns2 rest (.field (c :: cur))
  | c :: rest, .pending w cur =>
    if isPySpace c then cur.reverse :: splitRuns2 rest .sep
    else splitRuns2 rest (.field (c :: w :: cur))
  | c :: rest, .sep =>
    if isPySpace c then splitRuns2 rest .sep
    else splitRuns2 rest (.field [c])

/-- Source line 61: parts of a raw line, split on runs of 2+ whitespace
characters, each part stripped. -/
def pyParts (line : String) : List String :=
  (splitRuns2 line.toList (.field [])).map (fun cs => pyStrip (String.mk cs))

/-- Source line 67-68: re.match of the pattern \d{2}/\d{2}/\d{4} against the
start of a string (a match anywhere later in the string does not count). -/
def matchesDateAtStart (s : String) : Bool :=
  match s.toList with
  | d1 :: d2 :: s1 :: d3 :: d4 :: s2 :: y1 :: y2 :: y3 :: y4 :: _ =>
    d1.isDigit && d2.isDigit && s1 = '/' && d3.isDigit && d4.isDigit &&
      s2 = '/' && y1.isDigit && y2.isDigit && y3.isDigit && y4.isDigit
  | _ => false

/-- Source line 73: re.fullmatch of the pattern [A-Z]{1,3}: the whole string
is one to three uppercase ASCII letters. -/
def fullmatchUpper1to3 (s : String) : Bool :=
  decide (1 ≤ s.toList.length) && decide (s.toList.length ≤ 3) &&
    s.toList.all (fun c => decide ('A' ≤ c) && decide (c ≤ 'Z'))

/-- Source lines 139-149: the fixed per-character mapping inside
translate_marker, with the Unknown fallback for characters outside the table. -/
def charMeaning (c : Char) : String :=
  if c = 'F' then "Overseas voter – Parliamentary only"
  else if c = 'G' then "EU citizen – local elections only"
  else if c = 'B' then "EU citizen (retained rights/qualifying)"
  else if c = 'L' then "Peer – local elections only"
  else if c = 'M' then "Qualifying foreign citizen – local elections only"
  else if c = 'N' then "Attainer (not yet voting age)"
  else "Unknown (" ++ String.singleton c ++ ")"

/-- Source lines 136-150: translate_marker.  The argument is an Option to model
the pandas missing value: pd.isna is true exactly for an absent value (none),
and false for every string, the empty string included.  For a present string
the function strips, uppercases, maps every remaining character through the
fixed table and joins the results with a comma-space separator (the join of an
empty character sequence is the empty string). -/
def translate_marker (marker : Option String) : String :=
  match marker with
  | none => "Eligible for all local elections"
  | some m => String.intercalate ", " ((pyUpper (pyStrip m)).toList.map charMeaning)

/-- One extracted row of the PDF path, source line 84: the list
[elector_number, marker, name, address, translated_marker]. -/
structure PdfRecord where
  electorNumber : String
  marker : String
  name : String
  address : String
  translatedMarker : String
deriving Repr, DecidableEq

/-- Source lines 62-84: the per-line body of the extraction loop after
splitting, acting on the list of stripped parts.  The tmDefined flag records
whether the name translate_marker is bound in the module namespace at the time
the line is processed: the def statement of translate_marker stands at source
line 136, after the loop (lines 59-92), so during the module run the letter
marker branch (source line 77) raises NameError, which the bare except of
source line 85 turns into skipping the line (none).  The date branch (line 72)
and the no-marker branch (lines 79-82) reference no undefined name and
succeed.  Fewer than 4 parts fail the len check of line 62 (none). -/
def classifyParts (tmDefined : Bool) : List String → Option PdfRecord
  | p0 :: p1 :: p2 :: p3 :: _ =>
    if matchesDateAtStart p1 then
      some ⟨p0, p1, p2, p3, "Will become eligible to vote on " ++ p1⟩
    else if fullmatchUpper1to3 p1 then
      if tmDefined then some ⟨p0, p1, p2, p3, translate_marker (some p1)⟩
      else none
    else
      some ⟨p0, "", p1, p2, ""⟩
  | _ => none

/-- One iteration of the loop of source lines 60-86 on a raw line. -/
def parseLine (tmDefined : Bool) (line : String) : Option PdfRecord :=
  classifyParts tmDefined (pyParts line)

/-- Source lines 59-86 as run at module level: every line is parsed with the
name translate_marker still unbound (its def executes only at line 136), and
failing lines are dropped with no record kept of how many failed. -/
def extractLines (lines : List String) : List PdfRecord :=
  lines.filterMap (parseLine false)

/-- Source lines 88-92: the caller-visible outcome of the extraction loop.
A nonempty extraction becomes the data frame df_raw; an empty one becomes the
fixed warning text of line 92. -/
def pdfOutcome (lines : List String) : Except String (List PdfRecord) :=
  match extractLines lines with
  | [] => Except.error "Could not parse PDF lines into structured register format."
  | r :: rs => Except.ok (r :: rs)

/-- ASCII meaning of the regex class \w: letter, digit or underscore. -/
def isWordChar (c : Char) : Bool :=
  c.isAlphanum || c = '_'

/-- Longest run of word characters at the start of a string. -/
def leadingWordRun (s : String) : String :=
  String.mk (s.toList.takeWhile isWordChar)

/-- Source line 158: pandas Series.str.extract with the pattern of one capture
group of one or more word characters anchored at the start.  A value with no
leading word character yields no match, which pandas records as the missing
value NaN (none here). -/
def extractLeadingWord (s : String) : Option String :=
  if leadingWordRun s = "" then none else some (leadingWordRun s)

/-- The Polling District cell as it reaches the exported CSV: pandas to_csv
serialises the missing value NaN as an empty field. -/
def pollingCell (s : String) : String :=
  (extractLeadingWord s).getD ""

/-- A data frame of string-valued cells: a header list and a list of rows.
The pandas frames reaching the export block carry string cells (CSV input and
PDF extraction); dtype inference on fully numeric columns is outside this
model. -/
structure Table where
  cols : List String
  rows : List (List String)
deriving Repr, DecidableEq

/-- Source lines 157-158: when a column named exactly Elector Number exists,
assign the derived Polling District column.  The pandas column assignment
df[name] = series overwrites an existing column of that name in place and
otherwise appends the new column at the end. -/
def addPollingDistrict (t : Table) : Table :=
  if t.cols.contains "Elector Number" then
    let i := t.cols.indexOf "Elector Number"
    let derive := fun (r : List String) => pollingCell (r.getD i "")
    if t.cols.contains "Polling District" then
      let j := t.cols.indexOf "Polling District"
      ⟨t.cols, t.rows.map (fun r => r.set j (derive r))⟩
    else
      ⟨t.cols ++ ["Polling District"], t.rows.map (fun r => r ++ [derive r])⟩
  else t

/-- Source lines 155-171: the process-and-export block.  The try body only
derives the Polling District column and then renders and exports the table;
on a string-valued table the body is total, so the block always succeeds and
exports.  The except arm (source line 171) is reachable only through pandas
runtime errors outside this string model, and its message is the fixed text
shown here, naming no columns. -/
def processExport (t : Table) : Except String Table :=
  Except.ok (addPollingDistrict t)

/-- Modelled from the wording of the spec, section 4.1, letter-code path: trim
surrounding whitespace, uppercase, map each remaining character through the
fixed table (with the Unknown fallback), join with comma-space in original
character order without deduplication.  Kept as a lookup table to compare
against the translate_marker of the source. -/
def markerTableSpec : List (Char × String) :=
  [('F', "Overseas voter – Parliamentary only"),
   ('G', "EU citizen – local elections only"),
   ('B', "EU citizen (retained rights/qualifying)"),
   ('L', "Peer – local elections only"),
   ('M', "Qualifying foreign citizen – local elections only"),
   ('N', "Attainer (not yet voting age)")]

/-- Lookup of a character in an association table, first hit wins. -/
def lookupTable : List (Char × String) → Char → Option String
  | [], _ => none
  | (k, v) :: rest, c => if c = k then some v else lookupTable rest c

/-- Spec-side letter-code decoder built from markerTableSpec. -/
def markerDecoderSpec (s : String) : String :=
  String.intercalate ", "
    ((pyUpper (pyStrip s)).toList.map
      (fun c => (lookupTable markerTableSpec c).getD ("Unknown (" ++ String.singleton c ++ ")")))

/-- Per-character agreement between the if-chain of the source and the lookup
table written from the wording of the spec. -/
lemma charMeaning_eq_lookup (c : Char) :
    charMeaning c
      = (lookupTable markerTableSpec c).getD ("Unknown (" ++ String.singleton c ++ ")") := by
  by_cases hF : c = 'F' <;> by_cases hG : c = 'G' <;> by_cases hB : c = 'B' <;>
    by_cases hL : c = 'L' <;> by_cases hM : c = 'M' <;> by_cases hN : c = 'N' <;>
    simp_all [charMeaning, markerTableSpec, lookupTable]

/-- C1: for every marker string, translate_marker trims surrounding
whitespace, uppercases, maps each remaining character through the fixed table
with the Unknown fallback, and joins the per-character results with a
comma-space separator in original character order without deduplication
(the spec-side decoder written from that wording). -/
theorem C1_translate_marker_matches_fixed_table (s : String) :
    translate_marker (some s) = markerDecoderSpec s := by
  unfold translate_marker markerDecoderSpec
  exact congrArg (String.intercalate ", ")
    (List.map_congr_left (fun c _ => charMeaning_eq_lookup c))

/-- C1 counterexample: the input F-space-G is not treated as FG, because strip
removes only surrounding whitespace; the interior space is looked up like any
other character and contributes an Unknown entry. -/
theorem C1_counterexample_interior_space_kept :
    translate_marker (some "F G")
        = "Overseas voter – Parliamentary only, Unknown ( ), EU citizen – local elections only"
      ∧ translate_marker (some "F G")
        ≠ "Overseas voter – Parliamentary only, EU citizen – local elections only" := by
  exact ⟨rfl, by decide⟩

/-- C2 counterexample: the decoder applied to the empty marker string returns
the empty string, not the default eligibility text, because pd.isna is false
on the empty string and the join over zero characters is empty. -/
theorem C2_counterexample_empty_marker_not_default :
    translate_marker (some "") = ""
      ∧ translate_marker (some "") ≠ "Eligible for all local elections" := by
  exact ⟨rfl, by decide⟩

/-- C2 (amended): only an absent marker value (pandas NaN or None) decodes to
the default Eligible for all local elections; the empty marker string decodes
to the empty string, and a PDF line whose second field is neither a date nor a
1-3 uppercase-letter code yields a record with empty Marker and empty Elector
Marker Type fields rather than the default. -/
theorem C2_default_only_for_absent_marker :
    translate_marker none = "Eligible for all local elections"
      ∧ translate_marker (some "") = ""
      ∧ ∀ line p0 p1 p2 p3 rest, pyParts line = p0 :: p1 :: p2 :: p3 :: rest →
          matchesDateAtStart p1 = false → fullmatchUpper1to3 p1 = false →
          parseLine false line = some ⟨p0, "", p1, p2, ""⟩ := by
  refine ⟨rfl, rfl, ?_⟩
  intro line p0 p1 p2 p3 rest hp hd hm
  unfold parseLine
  rw [hp]
  simp [classifyParts, hd, hm]

/-- C2 witness: a concrete no-marker line carries empty Marker and empty
Elector Marker Type. -/
theorem C2_default_only_for_absent_marker_witness :
    parseLine false "A1  DOE, JANE  4 HIGH ST  AB1 2CD"
      = some ⟨"A1", "", "DOE, JANE", "4 HIGH ST", ""⟩ :=
  C2_default_only_for_absent_marker.2.2 "A1  DOE, JANE  4 HIGH ST  AB1 2CD"
    "A1" "DOE, JANE" "4 HIGH ST" "AB1 2CD" [] (by decide) (by decide) (by decide)

/-- C3 counterexample: translate_marker itself has no date branch; applied to
a DD/MM/YYYY string it maps every character through the letter table, so each
digit and slash becomes an Unknown entry. -/
theorem C3_counterexample_translate_marker_has_no_date_branch :
    translate_marker (some "01/06/2026")
        = "Unknown (0), Unknown (1), Unknown (/), Unknown (0), Unknown (6), Unknown (/), Unknown (2), Unknown (0), Unknown (2), Unknown (6)"
      ∧ translate_marker (some "01/06/2026")
        ≠ "Will become eligible to vote on 01/06/2026" := by
  exact ⟨rfl, by decide⟩

/-- C3 (amended): the date branch lives in the PDF line-extraction loop, not
in translate_marker: for every line with at least 4 heuristic fields whose
second field matches DD/MM/YYYY at the start, the loop emits a record whose
Elector Marker Type is the text Will become eligible to vote on followed by
the second field copied verbatim, with no calendar revalidation; this holds
whether or not the name translate_marker is bound, since the branch never
calls it. -/
theorem C3_date_branch_in_extraction_loop :
    ∀ (b : Bool) (line p0 p1 p2 p3 : String) (rest : List String),
      pyParts line = p0 :: p1 :: p2 :: p3 :: rest →
      matchesDateAtStart p1 = true →
      parseLine b line = some ⟨p0, p1, p2, p3, "Will become eligible to vote on " ++ p1⟩ := by
  intro b line p0 p1 p2 p3 rest hp hd
  unfold parseLine
  rw [hp]
  simp [classifyParts, hd]

/-- C3 witness: the concrete date line of the claim yields exactly the
verbatim date message, including an uncalendared date being copied as is. -/
theorem C3_date_branch_witness :
    parseLine false "BA1001  01/06/2026  DOE, JANE  4 HIGH ST"
        = some ⟨"BA1001", "01/06/2026", "DOE, JANE", "4 HIGH ST",
            "Will become eligible to vote on 01/06/2026"⟩
      ∧ parseLine false "BA1001  99/99/9999  DOE, JANE  4 HIGH ST"
        = some ⟨"BA1001", "99/99/9999", "DOE, JANE", "4 HIGH ST",
            "Will become eligible to vote on 99/99/9999"⟩ :=
  ⟨C3_date_branch_in_extraction_loop false "BA1001  01/06/2026  DOE, JANE  4 HIGH ST"
      "BA1001" "01/06/2026" "DOE, JANE" "4 HIGH ST" [] (by decide) (by decide),
   C3_date_branch_in_extraction_loop false "BA1001  99/99/9999  DOE, JANE  4 HIGH ST"
      "BA1001" "99/99/9999" "DOE, JANE" "4 HIGH ST" [] (by decide) (by decide)⟩

/-- C4 (amended): the heuristic parser splits each raw line on runs of 2 or
more whitespace characters and proceeds to extract a record only when the
split yields at least 4 fields (source line 62); every line producing fewer
fields is skipped, and every line with at least 4 fields reaches the
classification and, with the decoder name bound, produces a record. -/
theorem C4_heuristic_split_requires_four_fields :
    (∀ (b : Bool) (line : String), (pyParts line).length < 4 → parseLine b line = none)
      ∧ ∀ line : String, 4 ≤ (pyParts line).length → (parseLine true line).isSome = true := by
  constructor
  · intro b line h
    unfold parseLine
    rcases hp : pyParts line with _ | ⟨a, _ | ⟨a2, _ | ⟨a3, _ | ⟨a4, rest⟩⟩⟩⟩ <;>
      simp [classifyParts]
    rw [hp] at h
    simp only [List.length_cons] at h
    omega
  · intro line h
    unfold parseLine
    rcases hp : pyParts line with _ | ⟨a, _ | ⟨a2, _ | ⟨a3, _ | ⟨a4, rest⟩⟩⟩⟩ <;>
      rw [hp] at h <;> simp only [List.length_cons, List.length_nil] at h <;>
      try omega
    unfold classifyParts
    cases hd : matchesDateAtStart a2 <;> cases hm : fullmatchUpper1to3 a2 <;>
      simp [hd, hm]

/-- C4 counterexample: a line splitting into exactly 3 heuristic fields is not
extracted, against the claimed threshold of 3; here the second field is
neither a date nor a letter code, so under a 3-field threshold the no-marker
branch would have produced a record. -/
theorem C4_counterexample_three_field_line_skipped :
    (pyParts "A1  JOHN SMITH  4 HIGH ST").length = 3
      ∧ parseLine true "A1  JOHN SMITH  4 HIGH ST" = none
      ∧ parseLine false "A1  JOHN SMITH  4 HIGH ST" = none := by
  exact ⟨rfl, rfl, rfl⟩

/-- C4 witness: a 1-field line is skipped for every state of the decoder name,
and a concrete 4-field line is extracted. -/
theorem C4_heuristic_split_requires_four_fields_witness :
    parseLine false "AB" = none
      ∧ (parseLine true "A1  X  Y  Z").isSome = true :=
  ⟨C4_heuristic_split_requires_four_fields.1 false "AB" (by decide),
   C4_heuristic_split_requires_four_fields.2 "A1  X  Y  Z" (by decide)⟩

/-- C5: the claimed line is indeed classified as elector number BA1001, marker
AB, name DOE, JANE, address 4 HIGH ST by the classification branch (second
conjunct, with the decoder name bound), but in the actual module run the
letter-marker branch calls translate_marker before its def statement has
executed, the NameError is swallowed by the bare except, and the line is
skipped: the module-level extraction of this line yields no record at all
(first conjunct). -/
theorem C5_letter_marker_line_dropped_in_module_run :
    extractLines ["BA1001  AB  DOE, JANE  4 HIGH ST  AB1 2CD"] = []
      ∧ parseLine true "BA1001  AB  DOE, JANE  4 HIGH ST  AB1 2CD"
          = some ⟨"BA1001", "AB", "DOE, JANE", "4 HIGH ST",
              "Unknown (A), EU citizen (retained rights/qualifying)"⟩ := by
  exact ⟨rfl, rfl⟩

/-- C6 (amended): a line on which per-line parsing fails is skipped silently:
removing it from the input leaves the extracted records unchanged, no
exception escapes the loop, and no unparsed-line count exists anywhere in the
result; the only escalation is the fixed warning text shown when zero records
were extracted. -/
theorem C6_per_line_failures_skipped_silently :
    (∀ (pre post : List String) (bad : String), parseLine false bad = none →
        extractLines (pre ++ bad :: post) = extractLines (pre ++ post))
      ∧ ∀ lines : List String, extractLines lines = [] →
          pdfOutcome lines
            = Except.error "Could not parse PDF lines into structured register format." := by
  constructor
  · intro pre post bad hb
    unfold extractLines
    rw [List.filterMap_append, List.filterMap_append, List.filterMap_cons_none hb]
  · intro lines h
    unfold pdfOutcome
    rw [h]

/-- C6 witness: dropping a concrete unparsable line changes nothing, and an
input of only unparsable lines gives the zero-records warning. -/
theorem C6_per_line_failures_witness :
    extractLines ["BA1001  01/06/2026  X  Y", "junk"]
        = extractLines ["BA1001  01/06/2026  X  Y"]
      ∧ pdfOutcome ["junk"]
        = Except.error "Could not parse PDF lines into structured register format." :=
  ⟨C6_per_line_failures_skipped_silently.1 ["BA1001  01/06/2026  X  Y"] [] "junk" rfl,
   C6_per_line_failures_skipped_silently.2 ["junk"] rfl⟩

/-- C6 counterexample: no unparsed-line count is reported to the caller: two
inputs with the same parsable line but different numbers of failing lines
(one against two) produce identical caller-visible outcomes, so the tally the
claim describes does not exist in the code. -/
theorem C6_counterexample_no_unparsed_tally :
    pdfOutcome ["BA1001  01/06/2026  DOE, JANE  4 HIGH ST", "garbledline"]
      = pdfOutcome ["BA1001  01/06/2026  DOE, JANE  4 HIGH ST", "garbled1", "garbled2"] := by
  rfl

/-- C7 counterexample: with a schema from which not one mandatory semantic
role is resolvable, the export block still produces an output table (the
input passed through unchanged) and no warning: processing does not halt and
nothing names missing roles. -/
theorem C7_counterexample_no_halt_without_roles :
    processExport ⟨["Foo", "Bar"], [["x", "y"]]⟩
      = Except.ok ⟨["Foo", "Bar"], [["x", "y"]]⟩ := by
  rfl

/-- C7 (amended): the export block performs no semantic-role validation: when
no column is named exactly Elector Number the table is exported unchanged,
with no halt and no warning; the only warning in the block is the fixed
generic text of source line 171, which fires only on a library exception and
names no roles. -/
theorem C7_no_role_validation (t : Table)
    (h : t.cols.contains "Elector Number" = false) :
    processExport t = Except.ok t := by
  unfold processExport addPollingDistrict
  rw [h]
  simp

/-- C7 witness: a table carrying only a Name column is exported as is. -/
theorem C7_no_role_validation_witness :
    processExport ⟨["Name"], [["Jane Doe"]]⟩ = Except.ok ⟨["Name"], [["Jane Doe"]]⟩ :=
  C7_no_role_validation ⟨["Name"], [["Jane Doe"]]⟩ (by decide)

/-- C8: the derived Polling District cell of a non-empty elector-number value
equals the leading run of word characters of the value, and is empty when the
value has no leading word character (the pandas NaN of a failed anchored
match serialises to an empty CSV field). -/
theorem C8_polling_district_is_leading_word_run (s : String) (h : s ≠ "") :
    pollingCell s = leadingWordRun s
      ∧ ∀ c : Char, s.toList.head? = some c → isWordChar c = false →
          pollingCell s = "" := by
  constructor
  · unfold pollingCell extractLeadingWord
    split_ifs with he
    · rw [he]; rfl
    · rfl
  · intro c hc hw
    have ht : s.toList.takeWhile isWordChar = [] := by
      rcases hl : s.toList with _ | ⟨c0, t⟩
      · rfl
      · rw [hl] at hc
        have hc0 : c0 = c := by simpa using hc
        subst hc0
        simp [List.takeWhile_cons, hw]
    unfold pollingCell extractLeadingWord leadingWordRun
    rw [ht]
    rfl

/-- C8 witness: a plain alphanumeric elector number is its own leading word
run, and a value opening with a non-word character derives an empty cell. -/
theorem C8_polling_district_witness :
    pollingCell "BA1001" = leadingWordRun "BA1001" ∧ pollingCell "-X1" = "" :=
  ⟨(C8_polling_district_is_leading_word_run "BA1001" (by decide)).1,
   (C8_polling_district_is_leading_word_run "-X1" (by decide)).2 '-' rfl (by decide)⟩

/-- C9: every PDF text line with at least 4 heuristic fields whose second
field fully matches 1-3 uppercase letters is dropped in the module run: the
letter-marker branch calls translate_marker, whose def statement at source
line 136 has not executed when the module-level loop of lines 59-92 runs, so
the NameError is swallowed by the bare except of line 85 and no record is
emitted for the line. -/
theorem C9_letter_marker_lines_dropped :
    ∀ (line p0 p1 p2 p3 : String) (rest : List String),
      pyParts line = p0 :: p1 :: p2 :: p3 :: rest →
      matchesDateAtStart p1 = false → fullmatchUpper1to3 p1 = true →
      parseLine false line = none := by
  intro line p0 p1 p2 p3 rest hp hd hm
  unfold parseLine
  rw [hp]
  simp [classifyParts, hd, hm]

/-- C9 witness: a concrete line with the single-letter marker F is dropped by
the module-level extraction. -/
theorem C9_letter_marker_lines_dropped_witness :
    parseLine false "AA1  F  SMITH, JOHN  1 MAIN RD" = none :=
  C9_letter_marker_lines_dropped "AA1  F  SMITH, JOHN  1 MAIN RD"
    "AA1" "F" "SMITH, JOHN" "1 MAIN RD" [] rfl rfl rfl

/-- Export branch with no Elector Number column: the table is untouched. -/
lemma addPD_of_no_elector_number (t : Table)
    (h : t.cols.contains "Elector Number" = false) :
    addPollingDistrict t = t := by
  unfold addPollingDistrict
  rw [h]
  simp

/-- Export branch with an Elector Number column and no pre-existing Polling
District column: the derived column is appended at the end of every row. -/
lemma addPD_append (t : Table)
    (h1 : t.cols.contains "Elector Number" = true)
    (h2 : t.cols.contains "Polling District" = false) :
    addPollingDistrict t
      = ⟨t.cols ++ ["Polling District"],
         t.rows.map (fun r =>
           r ++ [pollingCell (r.getD (t.cols.indexOf "Elector Number") "")])⟩ := by
  unfold addPollingDistrict
  rw [h1, h2]
  simp

/-- Export branch with both columns present: pandas overwrites the existing
Polling District column in place. -/
lemma addPD_overwrite (t : Table)
    (h1 : t.cols.contains "Elector Number" = true)
    (h2 : t.cols.contains "Polling District" = true) :
    addPollingDistrict t
      = ⟨t.cols,
         t.rows.map (fun r =>
           r.set (t.cols.indexOf "Polling District")
             (pollingCell (r.getD (t.cols.indexOf "Elector Number") "")))⟩ := by
  unfold addPollingDistrict
  rw [h1, h2]
  simp

/-- Reading a mapped row list at a position below the length applies the per
row function to the original row. -/
lemma getD_map_row (rows : List (List String)) (f : List String → List String)
    (i : Nat) (hi : i < rows.length) :
    (rows.map f).getD i [] = f (rows.getD i []) := by
  rw [List.getD_eq_getElem?_getD, List.getD_eq_getElem?_getD, List.getElem?_map,
    List.getElem?_eq_getElem hi]
  rfl

/-- C10: the exported table is the raw tabular input unchanged except for the
Polling District column: without an Elector Number column the table passes
through identically; with one, the header grows by exactly the Polling
District column when that column is absent (it is overwritten in place when
present), the row count is preserved, and every cell under a column other
than Polling District passes through verbatim, so no marker decoding, role
resolution or elector-number assembly touches tabular rows. -/
theorem C10_tabular_export_passes_through (t : Table)
    (hw : ∀ r ∈ t.rows, r.length = t.cols.length) :
    ((addPollingDistrict t).cols = t.cols
        ∨ (addPollingDistrict t).cols = t.cols ++ ["Polling District"])
      ∧ (addPollingDistrict t).rows.length = t.rows.length
      ∧ (t.cols.contains "Elector Number" = false → addPollingDistrict t = t)
      ∧ ∀ i j : Nat, i < t.rows.length → j < t.cols.length →
          t.cols.getD j "" ≠ "Polling District" →
          ((addPollingDistrict t).rows.getD i []).getD j ""
            = (t.rows.getD i []).getD j "" := by
  by_cases hEN : t.cols.contains "Elector Number" = true
  · by_cases hPD : t.cols.contains "Polling District" = true
    · rw [addPD_overwrite t hEN hPD]
      refine ⟨Or.inl rfl, by simp, ?_, ?_⟩
      · intro hcontra; rw [hEN] at hcontra; cases hcontra
      · intro i j hi hj hne
        rw [getD_map_row _ _ i hi]
        have hjPD : t.cols.indexOf "Polling District" < t.cols.length :=
          List.indexOf_lt_length.mpr (List.elem_iff.mp hPD)
        have hcolPD : t.cols[t.cols.indexOf "Polling District"] = "Polling District" :=
          List.getElem_indexOf hjPD
        have hjne : t.cols.indexOf "Polling District" ≠ j := by
          intro he
          apply hne
          rw [List.getD_eq_getElem?_getD, ← he, List.getElem?_eq_getElem hjPD]
          simpa using hcolPD
        rw [List.getD_eq_getElem?_getD, List.getD_eq_getElem?_getD,
          List.getElem?_set_ne hjne, List.getD_eq_getElem?_getD]
    · rw [addPD_append t hEN (by simpa using hPD)]
      refine ⟨Or.inr rfl, by simp, ?_, ?_⟩
      · intro hcontra; rw [hEN] at hcontra; cases hcontra
      · intro i j hi hj hne
        rw [getD_map_row _ _ i hi]
        have hrlen : (t.rows[i]?.getD []).length = t.cols.length := by
          have hrow : t.rows[i]?.getD [] = t.rows[i] := by
            rw [List.getElem?_eq_getElem hi]
            rfl
          rw [hrow]
          exact hw _ (List.getElem_mem hi)
        rw [List.getD_eq_getElem?_getD, List.getD_eq_getElem?_getD,
          List.getElem?_append_left (by omega), List.getD_eq_getElem?_getD]
  · have hEN' : t.cols.contains "Elector Number" = false := by simpa using hEN
    rw [addPD_of_no_elector_number t hEN']
    exact ⟨Or.inl rfl, rfl, fun _ => rfl, fun i j hi hj hne => rfl⟩

/-- C10 witness: on a concrete two-column register the Name cell passes
through the export unchanged. -/
theorem C10_tabular_export_witness :
    ((addPollingDistrict ⟨["Elector Number", "Name"], [["BA1001", "JANE"]]⟩).rows.getD 0 []).getD 1 ""
      = ((Table.mk ["Elector Number", "Name"] [["BA1001", "JANE"]]).rows.getD 0 []).getD 1 "" :=
  (C10_tabular_export_passes_through ⟨["Elector Number", "Name"], [["BA1001", "JANE"]]⟩
    (by decide)).2.2.2 0 1 (by decide) (by decide) (by decide)
